import Mathlib

/-!
Verification development for the `computer-use-my-mac` repository.

The repository has two source files:
* `computer_use_demo/tools/run.py` — bounded execution of shell commands and
  callables with output truncation (`maybe_truncate`, `run_shell`, `run`);
* `computer_use_demo/tools/computer.py` — the `ComputerTool` action dispatcher
  with coordinate scaling and screenshot capture.

Python strings are modelled as Lean `String`s (sequences of characters),
Python ints as `Int`, Python floats produced by exact divisions and
multiplications of machine-size integers as `Rat` (every concrete value the
claims exercise is exactly representable), and `None`-able parameters as
`Option`.  OS side effects (pyautogui calls, screen capture) are modelled as
an explicit effect trace produced by the dispatcher, with the ambient screen
state abstracted into an `Env` record.
-/

namespace Run

/-- Constant `TRUNCATED_MESSAGE` from tools/run.py. -/
def TRUNCATED_MESSAGE : String :=
  "<response clipped><NOTE>Response was truncated to save context.</NOTE>"

/-- Constant `MAX_RESPONSE_LEN` from tools/run.py. -/
def MAX_RESPONSE_LEN : Nat := 16000

/-- Function `maybe_truncate` from tools/run.py.  The Python body is
`content if not truncate_after or len(content) <= truncate_after
 else content[:truncate_after] + TRUNCATED_MESSAGE`;
`not truncate_after` is true exactly when `truncate_after` is `None` or `0`. -/
def maybe_truncate (content : String) (truncate_after : Option Nat) : String :=
  match truncate_after with
  | none => content
  | some n =>
      if n = 0 ∨ content.length ≤ n then content
      else content.take n ++ TRUNCATED_MESSAGE

end Run

namespace Run

/-- C3: for every positive limit `n`, a string of length ≤ `n` is returned
unchanged; a longer string becomes its first `n` characters followed by the
fixed notice marker, so the output length is `n` plus the marker's length and
the `n`-character prefix of the output is the `n`-character prefix of the
input. -/
theorem maybe_truncate_spec (s : String) (n : Nat) (hn : 0 < n) :
    (s.length ≤ n → maybe_truncate s (some n) = s) ∧
    (n < s.length →
      maybe_truncate s (some n) = s.take n ++ TRUNCATED_MESSAGE ∧
      (maybe_truncate s (some n)).length = n + TRUNCATED_MESSAGE.length ∧
      (maybe_truncate s (some n)).take n = s.take n) := by
  constructor
  · intro hle
    simp [maybe_truncate, hle]
  · intro hgt
    have hcond : ¬ (n = 0 ∨ s.length ≤ n) := by omega
    have heq : maybe_truncate s (some n) = s.take n ++ TRUNCATED_MESSAGE := by
      simp [maybe_truncate, hcond]
    have htakelen : (s.take n).length = n := by
      rw [String.take_eq, String.length_mk, List.length_take]
      have : s.data.length = s.length := String.length_data s
      omega
    refine ⟨heq, ?_, ?_⟩
    · rw [heq, String.length_append, htakelen]
    · rw [heq]
      apply String.ext
      rw [String.data_take, String.data_append, String.data_take]
      have h2 : (s.data.take n).length = n := by
        rw [List.length_take]
        have : s.data.length = s.length := String.length_data s
        omega
      exact List.take_left' h2

/-- Witness for C3 at a concrete input: limit 1, input "ab". -/
theorem maybe_truncate_spec_witness :
    (0 < 1 ∧ (1:Nat) < ("ab":String).length) ∧
    maybe_truncate "ab" (some 1) = ("ab":String).take 1 ++ TRUNCATED_MESSAGE :=
  ⟨⟨by decide, by decide⟩,
   ((maybe_truncate_spec "ab" 1 (by decide)).2 (by decide)).1⟩

/-- C10: a `truncate_after` of `None` or `0` disables truncation: the content
comes back unchanged, with no notice marker, no matter how long it is. -/
theorem maybe_truncate_disabled (s : String) :
    maybe_truncate s none = s ∧ maybe_truncate s (some 0) = s := by
  constructor
  · rfl
  · simp [maybe_truncate]

/-- Witness for C10 at a concrete long-enough string. -/
theorem maybe_truncate_disabled_witness :
    maybe_truncate "hello" none = "hello" ∧
    maybe_truncate "hello" (some 0) = "hello" :=
  maybe_truncate_disabled "hello"

end Run

/-- Python's `needle in hay` substring test, on character lists: true iff
`needle` occurs contiguously inside `hay`. -/
def containsSeq (needle : List Char) : List Char → Bool
  | [] => needle.isPrefixOf []
  | c :: rest => needle.isPrefixOf (c :: rest) || containsSeq needle rest

/-- Python's `needle in hay` substring test on strings. -/
def pyInStr (needle hay : String) : Bool :=
  containsSeq needle.toList hay.toList

theorem isPrefixOf_append_self (l t : List Char) : l.isPrefixOf (l ++ t) = true := by
  induction l with
  | nil => simp [List.isPrefixOf]
  | cons c cs ih => simp [List.isPrefixOf, ih]

theorem containsSeq_append (needle a b : List Char) :
    containsSeq needle (a ++ needle ++ b) = true := by
  induction a with
  | nil =>
      rw [List.nil_append]
      cases h : needle ++ b with
      | nil =>
          obtain ⟨hn, hb⟩ := List.append_eq_nil.mp h
          rw [hn]
          decide
      | cons c rest =>
          rw [containsSeq, ← h, isPrefixOf_append_self, Bool.true_or]
  | cons c cs ih =>
      rw [List.cons_append, List.cons_append, containsSeq]
      rw [List.append_assoc] at ih ⊢
      rw [ih, Bool.or_true]

/-- If `hay` decomposes as `a ++ needle ++ b` then the Python substring test
`needle in hay` succeeds. -/
theorem pyInStr_of_eq_append (needle hay a b : String)
    (h : hay = a ++ needle ++ b) : pyInStr needle hay = true := by
  unfold pyInStr
  have hl : hay.toList = a.toList ++ needle.toList ++ b.toList := by
    rw [h]
    simp [String.toList]
  rw [hl]
  exact containsSeq_append needle.toList a.toList b.toList

/-- Python's `str.lower()` (ASCII range; every string the program handles
here is ASCII). -/
def pyLower (s : String) : String :=
  ⟨s.data.map Char.toLower⟩

/-- Replace every non-overlapping occurrence of `needle` by `repl`, left to
right, on character lists — the semantics of Python's `str.replace` for a
non-empty needle.  `fuel` bounds the recursion; with `fuel ≥ l.length` the
result is exact. -/
def replaceFuel (needle repl : List Char) : Nat → List Char → List Char
  | 0, l => l
  | _ + 1, [] => []
  | fuel + 1, c :: rest =>
      if needle.isPrefixOf (c :: rest) && !needle.isEmpty then
        repl ++ replaceFuel needle repl fuel ((c :: rest).drop needle.length)
      else
        c :: replaceFuel needle repl fuel rest

/-- Python's `s.replace(needle, repl)` (non-empty needle). -/
def pyReplace (s needle repl : String) : String :=
  ⟨replaceFuel needle.data repl.data s.data.length s.data⟩

/-- Split on every occurrence of `sep`, left to right, on character lists —
the semantics of Python's `str.split(sep)` for a non-empty separator.
`acc` holds the reversed current field; `fuel` bounds the recursion and is
exact when `fuel ≥ l.length`. -/
def splitFuel (sep : List Char) : Nat → List Char → List Char → List (List Char)
  | 0, acc, l => [acc.reverse ++ l]
  | _ + 1, acc, [] => [acc.reverse]
  | fuel + 1, acc, c :: rest =>
      if sep.isPrefixOf (c :: rest) && !sep.isEmpty then
        acc.reverse :: splitFuel sep fuel [] ((c :: rest).drop sep.length)
      else
        splitFuel sep fuel (c :: acc) rest

/-- Python's `s.split(sep)` (non-empty separator). -/
def pySplit (s sep : String) : List String :=
  (splitFuel sep.data s.data.length [] s.data).map String.mk

namespace Run

/-- A bounded operation passed to `run` in tools/run.py: either a shell
command string or a callable.  `name` abstracts the identity of the Python
function object (its qualified name); the embedding never inspects it, just
as `run` never inspects the callable when building its timeout message. -/
inductive Operation where
  | shell (cmd : String)
  | callable (name : String)
deriving DecidableEq

/-- The identity of an operation: the command text for a shell command, the
name of the function for a callable. -/
def Operation.identity : Operation → String
  | .shell cmd => cmd
  | .callable n => n

/-- The message of the `TimeoutError` raised on deadline expiry in
tools/run.py: `run_shell` raises `f"Command '{cmd}' timed out after {timeout}
seconds"`, and `run` (callable branch) raises `f"Operation timed out after
{timeout} seconds"`.  `timeoutStr` is the decimal rendering of the configured
deadline float. -/
def timeoutMessage : Operation → String → String
  | .shell cmd, timeoutStr =>
      "Command '" ++ cmd ++ "' timed out after " ++ timeoutStr ++ " seconds"
  | .callable _, timeoutStr =>
      "Operation timed out after " ++ timeoutStr ++ " seconds"

/-- C4 counterexample: for a callable operation the timeout message does not
carry the operation's identity — at deadline rendering "0.1" and callable
"sleepy_function", the message is the generic "Operation timed out after 0.1
seconds" and the substring test for the identity fails. -/
theorem timeoutMessage_callable_no_identity :
    timeoutMessage (Operation.callable "sleepy_function") "0.1" =
      "Operation timed out after 0.1 seconds" ∧
    pyInStr (Operation.callable "sleepy_function").identity
      (timeoutMessage (Operation.callable "sleepy_function") "0.1") = false := by
  constructor
  · rfl
  · decide

/-- C4 amended: the timeout message always carries the configured deadline;
it carries the operation's identity for shell commands, but for callables it
is a fixed generic message ("Operation ...") independent of which callable
timed out. -/
theorem timeoutMessage_amended (cmd name timeoutStr : String) :
    pyInStr cmd (timeoutMessage (Operation.shell cmd) timeoutStr) = true ∧
    pyInStr timeoutStr (timeoutMessage (Operation.shell cmd) timeoutStr) = true ∧
    pyInStr timeoutStr (timeoutMessage (Operation.callable name) timeoutStr) = true ∧
    timeoutMessage (Operation.callable name) timeoutStr =
      "Operation timed out after " ++ timeoutStr ++ " seconds" := by
  refine ⟨?_, ?_, ?_, rfl⟩
  · apply pyInStr_of_eq_append cmd _ "Command '"
      ("' timed out after " ++ timeoutStr ++ " seconds")
    simp [timeoutMessage, String.append_assoc]
  · apply pyInStr_of_eq_append timeoutStr _
      ("Command '" ++ cmd ++ "' timed out after ") " seconds"
    simp [timeoutMessage, String.append_assoc]
  · apply pyInStr_of_eq_append timeoutStr _ "Operation timed out after " " seconds"
    simp [timeoutMessage, String.append_assoc]

/-- Witness for the amended C4 at a concrete command and deadline. -/
theorem timeoutMessage_amended_witness :
    pyInStr "sleep 5" (timeoutMessage (Operation.shell "sleep 5") "0.1") = true ∧
    pyInStr "0.1" (timeoutMessage (Operation.callable "f") "0.1") = true :=
  ⟨(timeoutMessage_amended "sleep 5" "f" "0.1").1,
   (timeoutMessage_amended "sleep 5" "f" "0.1").2.2.1⟩

end Run

deriving instance DecidableEq for Except

namespace Computer

/-- The closed action vocabulary (the `Action` Literal in computer.py).
`type'` stands for the Python action string "type". -/
inductive Action where
  | key
  | type'
  | mouse_move
  | left_click
  | left_click_drag
  | right_click
  | middle_click
  | double_click
  | screenshot
  | cursor_position
deriving DecidableEq

/-- The literal string of each action. -/
def Action.name : Action → String
  | .key => "key"
  | .type' => "type"
  | .mouse_move => "mouse_move"
  | .left_click => "left_click"
  | .left_click_drag => "left_click_drag"
  | .right_click => "right_click"
  | .middle_click => "middle_click"
  | .double_click => "double_click"
  | .screenshot => "screenshot"
  | .cursor_position => "cursor_position"

/-- An element of the `coordinate` argument together with its Python runtime
type: an `int` carrying its value, or some other object. -/
inductive PyElem where
  | int (n : Int)
  | other
deriving DecidableEq

/-- Check `isinstance(i, int) and i >= 0`, the per-element validation in
`ComputerTool.__call__`. -/
def PyElem.isNonnegInt : PyElem → Bool
  | .int n => decide (0 ≤ n)
  | .other => false

/-- The value of an element already known to be an int (`coordinate[i]`). -/
def PyElem.intVal : PyElem → Int
  | .int n => n
  | .other => 0

/-- The `coordinate` argument as a Python sequence value: its runtime type
tag (`isinstance(coordinate, list)`) and its elements.  The public signature
annotates `tuple[int, int]`, but the runtime check is on `list`. -/
structure PySeq where
  isList : Bool
  elems : List PyElem
deriving DecidableEq

/-- The rendering of an element inside the f-string error messages; the repr
of a non-int object is abstracted. -/
def PyElem.render : PyElem → String
  | .int n => toString n
  | .other => "<object>"

/-- Interpolation `f"\x7bcoordinate\x7d"`: Python repr of the sequence, `[a, b]` for a list,
`(a, b)` for a tuple (with the trailing comma of a 1-tuple). -/
def pyReprSeq (co : PySeq) : String :=
  let inner := String.intercalate ", " (co.elems.map PyElem.render)
  if co.isList then "[" ++ inner ++ "]"
  else if co.elems.length = 1 then "(" ++ inner ++ ",)"
  else "(" ++ inner ++ ")"

/-- Record `ToolResult` from tools/base.py as used by computer.py: fields `output`,
`error`, `base64_image`, each optional. -/
structure ToolResult where
  output : Option String
  error : Option String
  base64_image : Option String
deriving DecidableEq

/-- Result `ToolResult()` constructed with no arguments. -/
def ToolResult.empty : ToolResult := ⟨none, none, none⟩

/-- A raised `ToolError`, carrying its human-readable message. -/
structure ToolError where
  message : String
deriving DecidableEq

/-- Constant `TYPING_DELAY_MS` from computer.py (the `interval=TYPING_DELAY_MS/1000`
passed to `pyautogui.write`, kept in milliseconds). -/
def TYPING_DELAY_MS : Nat := 12

/-- Python's built-in `round` (round-half-to-even) on an exact value. -/
def pyRound (q : ℚ) : Int :=
  let f := ⌊q⌋
  let r := q - (f : ℚ)
  if r < 1/2 then f
  else if 1/2 < r then f + 1
  else if f % 2 = 0 then f else f + 1

/-- The per-instance state of `ComputerTool`: the physical screen resolution
detected at startup by `pyautogui.size()`, the fixed target (logical)
resolution class attributes, and the `_scaling_enabled` class flag. -/
structure ComputerTool where
  width : Nat
  height : Nat
  target_width : Nat
  target_height : Nat
  scaling_enabled : Bool
deriving DecidableEq

/-- Constructor `ComputerTool.__init__` on a machine whose primary screen is `w × h`:
target resolution fixed at 1280 × 800 (FWXGA), scaling enabled. -/
def mkTool (w h : Nat) : ComputerTool := ⟨w, h, 1280, 800, true⟩

/-- Factor `self.x_scaling_factor = self.width / self.target_width` (Python float
division, exact as a rational for the resolutions involved). -/
def ComputerTool.x_scaling_factor (c : ComputerTool) : ℚ :=
  (c.width : ℚ) / (c.target_width : ℚ)

/-- Factor `self.y_scaling_factor = self.height / self.target_height`. -/
def ComputerTool.y_scaling_factor (c : ComputerTool) : ℚ :=
  (c.height : ℚ) / (c.target_height : ℚ)

/-- Method `ComputerTool.scale_coordinates`: scale FROM target resolution TO actual
screen resolution; identity when scaling is disabled.  (The `print` logging
has no observable effect here.) -/
def ComputerTool.scale_coordinates (c : ComputerTool) (x y : Int) : Int × Int :=
  if ¬ c.scaling_enabled then (x, y)
  else (pyRound ((x : ℚ) * c.x_scaling_factor),
        pyRound ((y : ℚ) * c.y_scaling_factor))

/-- One observable side effect performed by a dispatch: a pyautogui
input-injection call or a screen capture. -/
inductive Effect where
  | moveTo (x y : Int)
  | mouseDown
  | mouseUp
  | hotkey (keys : List String)
  | press (key : String)
  | write (text : String) (intervalMs : Nat)
  | click
  | rightClick
  | middleClick
  | doubleClick
  | capture
deriving DecidableEq

/-- The ambient state read by a dispatch: the current physical pointer
position (`pyautogui.position()`) and the base64-encoded PNG that the
capture pipeline (mss grab → PIL resize to target resolution → PNG encode →
base64) produces for the current screen contents.  The imaging pipeline is
an external capability; its output is abstracted as `screen`. -/
structure Env where
  pointerX : Int
  pointerY : Int
  screen : String

/-- Method `ComputerTool.screenshot`: grab the primary monitor, resize to the
target resolution when scaling is enabled, PNG-encode, base64-encode, and
return `ToolResult(base64_image=...)`. -/
def ComputerTool.screenshot (env : Env) : List Effect × ToolResult :=
  ([Effect.capture], ⟨none, none, some env.screen⟩)

/-- Method `ComputerTool.__call__`: validate and dispatch one action, returning the
raised `ToolError` or the emitted effect trace with the `ToolResult`.  The
`isinstance(text, str)` check always passes in this typed embedding; in
`left_click_drag` the read of the current position has no observable
effect and its result is discarded by the source as well. -/
def ComputerTool.call (c : ComputerTool) (env : Env) (action : Action)
    (text : Option String) (coordinate : Option PySeq) :
    Except ToolError (List Effect × ToolResult) :=
  if action = .mouse_move ∨ action = .left_click_drag then
    match coordinate with
    | none => .error ⟨"coordinate is required for " ++ action.name⟩
    | some co =>
      if text.isSome then .error ⟨"text is not accepted for " ++ action.name⟩
      else if ¬ co.isList ∨ co.elems.length ≠ 2 then
        .error ⟨pyReprSeq co ++ " must be a tuple of length 2"⟩
      else if ¬ co.elems.all PyElem.isNonnegInt then
        .error ⟨pyReprSeq co ++ " must be a tuple of non-negative ints"⟩
      else
        let cx := (co.elems.getD 0 PyElem.other).intVal
        let cy := (co.elems.getD 1 PyElem.other).intVal
        if cx > (c.width : Int) ∨ cy > (c.height : Int) then
          .error ⟨"Coordinates " ++ toString cx ++ ", " ++ toString cy ++
                  " are out of bounds"⟩
        else
          let p := c.scale_coordinates cx cy
          if action = .mouse_move then
            .ok ([Effect.moveTo p.1 p.2], ToolResult.empty)
          else
            .ok ([Effect.mouseDown, Effect.moveTo p.1 p.2, Effect.mouseUp],
                 ToolResult.empty)
  else if action = .key ∨ action = .type' then
    match text with
    | none => .error ⟨"text is required for " ++ action.name⟩
    | some t =>
      if coordinate.isSome then
        .error ⟨"coordinate is not accepted for " ++ action.name⟩
      else if action = .key then
        if pyInStr "Command" t || pyInStr "command" t then
          .ok ([Effect.hotkey (pySplit (pyReplace (pyLower t) "_l" "") "+")],
               ToolResult.empty)
        else
          .ok ([Effect.press t], ToolResult.empty)
      else
        let s := ComputerTool.screenshot env
        .ok (Effect.write t TYPING_DELAY_MS :: s.1, s.2)
  else if action = .left_click ∨ action = .right_click ∨ action = .double_click ∨
          action = .middle_click ∨ action = .screenshot ∨
          action = .cursor_position then
    if text.isSome then .error ⟨"text is not accepted for " ++ action.name⟩
    else if coordinate.isSome then
      .error ⟨"coordinate is not accepted for " ++ action.name⟩
    else if action = .screenshot then
      .ok (ComputerTool.screenshot env)
    else if action = .cursor_position then
      let p := c.scale_coordinates env.pointerX env.pointerY
      .ok ([], ⟨some ("X=" ++ toString p.1 ++ ",Y=" ++ toString p.2),
                none, none⟩)
    else
      let clickEffect : Effect :=
        match action with
        | .left_click => .click
        | .right_click => .rightClick
        | .middle_click => .middleClick
        | _ => .doubleClick
      let s := ComputerTool.screenshot env
      .ok (clickEffect :: s.1, s.2)
  else
    .error ⟨"Invalid action: " ++ action.name⟩

/-- Whether a dispatch raised a `ToolError`. -/
def isToolError : Except ToolError (List Effect × ToolResult) → Bool
  | .error _ => true
  | .ok _ => false

/-- Whether an effect is a simultaneous key-combination press. -/
def Effect.isHotkey : Effect → Bool
  | .hotkey _ => true
  | _ => false

/-- Whether a dispatch succeeded and emitted a key-combination press. -/
def hasHotkeyEffect : Except ToolError (List Effect × ToolResult) → Bool
  | .ok pr => pr.1.any Effect.isHotkey
  | .error _ => false

/-- Modelled from the spec: the mapper's inverse direction (§4.1, "inverse
divides by the same factors and rounds").  This direction is missing from
computer.py; the gap is what claim C1 is about. -/
def toLogicalSpec (c : ComputerTool) (x y : Int) : Int × Int :=
  if ¬ c.scaling_enabled then (x, y)
  else (pyRound ((x : ℚ) / c.x_scaling_factor),
        pyRound ((y : ℚ) / c.y_scaling_factor))

/-- Modelled from the spec's words for C6: a "case-insensitive match on a
'command'-style modifier token". -/
def commandMatchInsensitive (t : String) : Bool :=
  pyInStr "command" (pyLower t)

theorem pyRound_intCast (n : Int) : pyRound ((n : ℚ)) = n := by
  norm_num [pyRound]

theorem mkTool_x_factor : (mkTool 1920 1200).x_scaling_factor = 3 / 2 := by
  norm_num [mkTool, ComputerTool.x_scaling_factor]

theorem mkTool_y_factor : (mkTool 1920 1200).y_scaling_factor = 3 / 2 := by
  norm_num [mkTool, ComputerTool.y_scaling_factor]

theorem mkTool_width (w h : Nat) : (mkTool w h).width = w := rfl

theorem mkTool_height (w h : Nat) : (mkTool w h).height = h := rfl

theorem mkTool_scale (x y nx ny : Int)
    (hx : (x : ℚ) * (3 / 2) = (nx : ℚ)) (hy : (y : ℚ) * (3 / 2) = (ny : ℚ)) :
    (mkTool 1920 1200).scale_coordinates x y = (nx, ny) := by
  rw [ComputerTool.scale_coordinates, mkTool_x_factor, mkTool_y_factor]
  have hs : (mkTool 1920 1200).scaling_enabled = true := rfl
  rw [hs]
  simp only [not_true, if_neg, ite_false]
  rw [hx, hy, pyRound_intCast, pyRound_intCast]

/-- C5: with scaling enabled, `scale_coordinates` multiplies each in-bounds
logical coordinate by its axis factor physical/logical and rounds; at
logical 1280×800 and physical 1920×1200 both factors are 3/2 and (640, 400)
maps to (960, 600). -/
theorem scale_coordinates_forward (c : ComputerTool) (x y : Int)
    (hs : c.scaling_enabled = true)
    (hx : 0 ≤ x ∧ x ≤ (c.target_width : Int))
    (hy : 0 ≤ y ∧ y ≤ (c.target_height : Int)) :
    c.scale_coordinates x y =
      (pyRound ((x : ℚ) * ((c.width : ℚ) / (c.target_width : ℚ))),
       pyRound ((y : ℚ) * ((c.height : ℚ) / (c.target_height : ℚ)))) ∧
    (mkTool 1920 1200).x_scaling_factor = 3 / 2 ∧
    (mkTool 1920 1200).y_scaling_factor = 3 / 2 ∧
    (mkTool 1920 1200).scale_coordinates 640 400 = (960, 600) := by
  refine ⟨?_, mkTool_x_factor, mkTool_y_factor,
    mkTool_scale 640 400 960 600 (by norm_num) (by norm_num)⟩
  simp [ComputerTool.scale_coordinates, hs, ComputerTool.x_scaling_factor,
    ComputerTool.y_scaling_factor]

/-- Witness for C5 at the spec's concrete example. -/
theorem scale_coordinates_forward_witness :
    (mkTool 1920 1200).scale_coordinates 640 400 = (960, 600) :=
  (scale_coordinates_forward (mkTool 1920 1200) 640 400 rfl (by decide)
    (by decide)).2.2.2

/-- C1: `cursor_position` feeds the physical pointer position into the
FORWARD target→physical scaler (`scale_coordinates`), contradicting that
function's own documented direction; with pointer (960, 600) on a 1920×1200
screen it reports "X=1440,Y=900", while the spec's inverse mapping gives
(640, 400), i.e. "X=640,Y=400". -/
theorem cursor_position_uses_forward_scaling :
    (mkTool 1920 1200).call ⟨960, 600, "img"⟩ Action.cursor_position none none =
      .ok ([], ⟨some "X=1440,Y=900", none, none⟩) ∧
    toLogicalSpec (mkTool 1920 1200) 960 600 = (640, 400) ∧
    "X=1440,Y=900" ≠ "X=640,Y=400" := by
  refine ⟨?_, ?_, by decide⟩
  · have h : (mkTool 1920 1200).scale_coordinates 960 600 = (1440, 900) :=
      mkTool_scale 960 600 1440 900 (by norm_num) (by norm_num)
    simp only [ComputerTool.call]
    norm_num [h]
    decide
  · simp only [toLogicalSpec, mkTool_x_factor, mkTool_y_factor]
    norm_num [mkTool, pyRound]

/-- C2 counterexample: on a 1920×1200 screen, `mouse_move` with coordinate
[1500, 400] — out of the logical bound, since 1500 > 1280 — is NOT rejected:
the bound is checked against the physical resolution, the call succeeds and
moves the pointer to (2250, 600), past the 1920-pixel-wide screen. -/
theorem mouse_move_logical_bound_counterexample :
    (1280 : Int) < 1500 ∧
    (mkTool 1920 1200).call ⟨0, 0, "img"⟩ Action.mouse_move none
        (some ⟨true, [PyElem.int 1500, PyElem.int 400]⟩) =
      .ok ([Effect.moveTo 2250 600], ToolResult.empty) := by
  refine ⟨by norm_num, ?_⟩
  have h : (mkTool 1920 1200).scale_coordinates 1500 400 = (2250, 600) :=
    mkTool_scale 1500 400 2250 600 (by norm_num) (by norm_num)
  simp only [ComputerTool.call, PyElem.isNonnegInt, PyElem.intVal,
    mkTool_width, mkTool_height]
  norm_num [h, ToolResult.empty]
  decide

/-- C2 amended: for `mouse_move`/`left_click_drag` with a two-int list
coordinate, a negative component or a component exceeding the detected
PHYSICAL display resolution (`self.width`/`self.height`, not the logical
1280×800 target) raises a ToolError; an error return carries no effect
trace, so no side effect has happened. -/
theorem movement_bounds_physical (c : ComputerTool) (env : Env) (a : Action)
    (ha : a = Action.mouse_move ∨ a = Action.left_click_drag) (cx cy : Int)
    (hbad : cx < 0 ∨ cy < 0 ∨ (c.width : Int) < cx ∨ (c.height : Int) < cy) :
    isToolError
      (c.call env a none (some ⟨true, [PyElem.int cx, PyElem.int cy]⟩)) =
      true := by
  by_cases h0 : 0 ≤ cx ∧ 0 ≤ cy
  · have hbound : (c.width : Int) < cx ∨ (c.height : Int) < cy := by
      rcases hbad with hb | hb | hb | hb
      · omega
      · omega
      · exact Or.inl hb
      · exact Or.inr hb
    have hall : ([PyElem.int cx, PyElem.int cy].all PyElem.isNonnegInt) = true := by
      simp [PyElem.isNonnegInt, h0.1, h0.2]
    rcases ha with ha | ha <;> subst ha <;>
      simp [ComputerTool.call, hall, PyElem.intVal, hbound, isToolError]
  · have hall : ([PyElem.int cx, PyElem.int cy].all PyElem.isNonnegInt) = false := by
      by_cases hx : 0 ≤ cx
      · have hy : ¬ 0 ≤ cy := fun hy => h0 ⟨hx, hy⟩
        simp [PyElem.isNonnegInt, hx, hy]
      · simp [PyElem.isNonnegInt, hx]
    rcases ha with ha | ha <;> subst ha <;>
      simp [ComputerTool.call, hall, isToolError]

/-- Witness for the amended C2: a negative x component is rejected. -/
theorem movement_bounds_physical_witness :
    isToolError ((mkTool 1920 1200).call ⟨0, 0, "img"⟩ Action.mouse_move none
      (some ⟨true, [PyElem.int (-5), PyElem.int 10]⟩)) = true :=
  movement_bounds_physical (mkTool 1920 1200) ⟨0, 0, "img"⟩ Action.mouse_move
    (Or.inl rfl) (-5) 10 (Or.inl (by norm_num))

/-- C6 counterexample: "COMMAND+q" contains the modifier token under a
case-insensitive match, but the code's check (`"Command" in text or
"command" in text`) misses it: the dispatcher issues a single literal key
press of "COMMAND+q" and no combination press. -/
theorem key_match_not_case_insensitive :
    commandMatchInsensitive "COMMAND+q" = true ∧
    (mkTool 1920 1200).call ⟨0, 0, "img"⟩ Action.key (some "COMMAND+q") none =
      .ok ([Effect.press "COMMAND+q"], ToolResult.empty) ∧
    hasHotkeyEffect
      ((mkTool 1920 1200).call ⟨0, 0, "img"⟩ Action.key (some "COMMAND+q") none) =
      false := by
  decide

/-- C6 amended: a `key` action whose text contains the literal substring
"Command" or "command" (exactly these two casings; the match is not fully
case-insensitive) is lowercased, stripped of the locale suffix "_l", split
on "+", and issued as one simultaneous combination press of the resulting
ordered token list; any other text is issued as a single literal key press.
In particular "Command_L+q" yields the combination ["command", "q"]. -/
theorem key_dispatch_amended (c : ComputerTool) (env : Env) (t : String) :
    ((pyInStr "Command" t || pyInStr "command" t) = true →
      c.call env Action.key (some t) none =
        .ok ([Effect.hotkey (pySplit (pyReplace (pyLower t) "_l" "") "+")],
             ToolResult.empty)) ∧
    ((pyInStr "Command" t || pyInStr "command" t) = false →
      c.call env Action.key (some t) none =
        .ok ([Effect.press t], ToolResult.empty)) ∧
    c.call env Action.key (some "Command_L+q") none =
      .ok ([Effect.hotkey ["command", "q"]], ToolResult.empty) := by
  refine ⟨?_, ?_, ?_⟩
  · intro hcond
    simp [ComputerTool.call, hcond]
  · intro hcond
    simp [ComputerTool.call, hcond]
  · have hc : (pyInStr "Command" "Command_L+q" ||
        pyInStr "command" "Command_L+q") = true := by decide
    simp [ComputerTool.call, hc]
    decide

/-- Witness for the amended C6 at text "Command_L+q". -/
theorem key_dispatch_amended_witness :
    (pyInStr "Command" "Command_L+q" || pyInStr "command" "Command_L+q") = true ∧
    (mkTool 1920 1200).call ⟨0, 0, "img"⟩ Action.key (some "Command_L+q") none =
      .ok ([Effect.hotkey
              (pySplit (pyReplace (pyLower "Command_L+q") "_l" "") "+")],
           ToolResult.empty) :=
  ⟨by decide,
   (key_dispatch_amended (mkTool 1920 1200) ⟨0, 0, "img"⟩ "Command_L+q").1
     (by decide)⟩

/-- C7: a validating `type` action (text present, no coordinate) types the
text with the fixed 12 ms inter-character delay, then captures; the result
carries an image payload and no text output, whatever the text. -/
theorem type_returns_image (c : ComputerTool) (env : Env) (t : String) :
    c.call env Action.type' (some t) none =
      .ok ([Effect.write t TYPING_DELAY_MS, Effect.capture],
           ⟨none, none, some env.screen⟩) ∧
    (ToolResult.mk none none (some env.screen)).base64_image.isSome = true ∧
    (ToolResult.mk none none (some env.screen)).output = none := by
  refine ⟨?_, rfl, rfl⟩
  simp [ComputerTool.call, ComputerTool.screenshot]

/-- Witness for C7 at a concrete text. -/
theorem type_returns_image_witness :
    (mkTool 1920 1200).call ⟨0, 0, "img"⟩ Action.type' (some "hello") none =
      .ok ([Effect.write "hello" TYPING_DELAY_MS, Effect.capture],
           ⟨none, none, some "img"⟩) :=
  (type_returns_image (mkTool 1920 1200) ⟨0, 0, "img"⟩ "hello").1

/-- C8: every ToolResult produced by a successful dispatch has `error`
unset and at most one payload field set; mouse_move, left_click_drag and
key return the empty result, cursor_position output only, and type, the
click actions and screenshot an image only. -/
theorem call_payload_invariant (c : ComputerTool) (env : Env) (a : Action)
    (t : Option String) (co : Option PySeq) (effs : List Effect)
    (res : ToolResult) (h : c.call env a t co = .ok (effs, res)) :
    res.error = none ∧ (res.output = none ∨ res.base64_image = none) ∧
    ((a = Action.mouse_move ∨ a = Action.left_click_drag ∨ a = Action.key) →
      res = ToolResult.empty) ∧
    (a = Action.cursor_position →
      res.output.isSome = true ∧ res.base64_image = none) ∧
    ((a = Action.type' ∨ a = Action.left_click ∨ a = Action.right_click ∨
      a = Action.middle_click ∨ a = Action.double_click ∨
      a = Action.screenshot) →
      res.output = none ∧ res.base64_image = some env.screen) := by
  cases a <;> cases t <;> cases co <;>
    simp [ComputerTool.call, ComputerTool.screenshot] at h <;>
    (repeat' split at h) <;>
    (try simp at h) <;>
    (obtain ⟨he, hr⟩ := h) <;> subst hr <;> simp [ToolResult.empty]

/-- Witness for C8: the successful screenshot dispatch. -/
theorem call_payload_invariant_witness :
    (⟨none, none, some "img"⟩ : ToolResult).error = none ∧
    ((⟨none, none, some "img"⟩ : ToolResult).output = none ∨
      (⟨none, none, some "img"⟩ : ToolResult).base64_image = none) :=
  ⟨(call_payload_invariant (mkTool 1920 1200) ⟨0, 0, "img"⟩ Action.screenshot
      none none [Effect.capture] ⟨none, none, some "img"⟩ (by decide)).1,
   (call_payload_invariant (mkTool 1920 1200) ⟨0, 0, "img"⟩ Action.screenshot
      none none [Effect.capture] ⟨none, none, some "img"⟩ (by decide)).2.1⟩

/-- C9: for `mouse_move`/`left_click_drag`, a coordinate that is not a
Python list — including a two-element tuple of non-negative in-bounds ints,
the very type the public signature annotates — fails the shape check with a
ToolError, and no non-list coordinate can produce a successful call. -/
theorem coordinate_must_be_list (c : ComputerTool) (env : Env) (a : Action)
    (ha : a = Action.mouse_move ∨ a = Action.left_click_drag) (co : PySeq)
    (hco : co.isList = false) :
    c.call env a none (some co) =
      .error ⟨pyReprSeq co ++ " must be a tuple of length 2"⟩ ∧
    ∀ (t : Option String) (effs : List Effect) (r : ToolResult),
      c.call env a t (some co) = .ok (effs, r) → False := by
  constructor
  · rcases ha with ha | ha <;> subst ha <;> simp [ComputerTool.call, hco]
  · intro t effs r hok
    rcases t with _ | s
    · rcases ha with ha | ha <;> subst ha <;>
        simp [ComputerTool.call, hco] at hok
    · rcases ha with ha | ha <;> subst ha <;>
        simp [ComputerTool.call] at hok

/-- Witness for C9: the in-bounds tuple (100, 200) is rejected at the shape
check. -/
theorem coordinate_must_be_list_witness :
    (mkTool 1920 1200).call ⟨0, 0, "img"⟩ Action.mouse_move none
        (some ⟨false, [PyElem.int 100, PyElem.int 200]⟩) =
      .error ⟨pyReprSeq ⟨false, [PyElem.int 100, PyElem.int 200]⟩ ++
              " must be a tuple of length 2"⟩ :=
  (coordinate_must_be_list (mkTool 1920 1200) ⟨0, 0, "img"⟩ Action.mouse_move
    (Or.inl rfl) ⟨false, [PyElem.int 100, PyElem.int 200]⟩ rfl).1

end Computer
